import Mathlib

set_option linter.unusedVariables false

/-!
Shallow embedding of `src/exts/omni.warp/omni/warp/nodes/OgnKernel.py`, the
OmniGraph node that compiles user-supplied warp kernel code and dispatches it.

Conventions of the embedding:

* Pure Python functions become Lean functions; the mutable `InternalState`
  object is threaded explicitly; Python exceptions become `Except PyError`.
* External collaborators (the warp compiler invoked through
  `spec.loader.exec_module`, the filesystem, the timeline, device resolution,
  the blake2b digest) are fields of an `Environment` record: they are outside
  the repository and are treated as oracles, while every decision made by
  `OgnKernel.py` itself is translated faithfully.
* A handful of small items imported from `omni/warp/scripts/kernelnode.py`
  (a file of this repository that is not part of the sources given here) are
  modelled from the spec; each such definition says so in its doc comment.
-/

/-- Attribute port direction, `og.AttributePortType` (`ATTR_PORT_TYPE_INPUT` /
`ATTR_PORT_TYPE_OUTPUT` in the source). -/
inductive PortType
  | input
  | output
deriving DecidableEq, Repr

/-- Element-type annotation of a generated struct member. `array` models
`wp.array(dtype=..., ndim=...)`, `scalar` models a plain value type. -/
inductive WarpAnn
  | array (dtype : String) (ndim : Nat)
  | scalar (dtype : String)
deriving DecidableEq, Repr

/-- Models `isinstance(x, wp.array)` on an annotation. -/
def WarpAnn.isArray : WarpAnn → Bool
  | .array _ _ => true
  | .scalar _ => false

/-- Runtime value of a node attribute as seen through `getattr(db.inputs, name)`
or `getattr(db.outputs, name)`.  A `buffer` carries its length and its data
pointer; `ptr = 0` models a NULL pointer (Python falsiness of `value.ptr`). -/
inductive AttrValue
  | buffer (len : Nat) (ptr : Nat)
  | scalar (v : Int)
deriving DecidableEq, Repr

/-- Compute device, `wp.context.Device` restricted to what the node
distinguishes (`device.is_cpu` / `device.is_cuda`). -/
inductive Device
  | cpu
  | cuda
deriving DecidableEq, Repr

/-- Python exception outcomes of the embedded functions. -/
inductive PyError
  | unsupportedAttrType (type_name : String)
  | fileNotFound (path : String)
  | compileError
  | assertionFailed
  | typeError
  | attributeError
  | emptyRequiredInput (attr_name : String)
deriving DecidableEq, Repr

/-- Modelled from the spec: `UserAttributesEvent` lives in
`omni/warp/scripts/kernelnode.py`, which is not among the given sources.  The
spec describes it as "a dynamic-attribute change event tag with flags
{none, added, removed}"; it is modelled as a set of boolean flags.  The source
tests `UserAttributesEvent.REMOVED & db.state.userAttrsEvent` (here `removed`)
and `db.state.userAttrsEvent != UserAttributesEvent.NONE` (here `≠ NONE`). -/
structure UserAttributesEvent where
  added : Bool
  removed : Bool
deriving DecidableEq, Repr

/-- The `NONE` event tag: no flag set. -/
def UserAttributesEvent.NONE : UserAttributesEvent :=
  { added := false, removed := false }

/-- Modelled from the spec: `MAX_DIMENSIONS` is imported from
`omni/warp/scripts/kernelnode.py` (not among the given sources); the spec says
the dimension count is "bounded by a fixed maximum".  warp uses 4. -/
def MAX_DIMENSIONS : Nat := 4

/-- Modelled from the spec: `ATTR_TO_WARP_TYPE` is the fixed enumerated mapping
from the host framework's attribute-type tokens to warp type strings, defined
in `omni/warp/scripts/kernelnode.py` (not among the given sources).  A few
representative entries suffice for the embedding; tokens outside the table are
a hard error in `generate_header_code`, exactly as in the source. -/
def ATTR_TO_WARP_TYPE : List (String × String) :=
  [("float", "float"),
   ("int", "int"),
   ("float[]", "wp.array(dtype=float)"),
   ("int[]", "wp.array(dtype=int)")]

/-- One entry of `db.node.get_attributes()`: the projections of an
`og.Attribute` object that `OgnKernel.py` reads. -/
structure OgAttribute where
  name : String
  port_type : PortType
  type_name : String
  is_dynamic : Bool
deriving DecidableEq, Repr

/-- Python module object returned by `load_code_as_module`, restricted to the
attributes that `InternalState.initialize` inspects: `hasattr(m, "compute")`,
`isinstance(m.compute, wp.context.Kernel)`, and the annotation dicts of the
generated `Inputs` / `Outputs` structs (`get_annotations(m.Inputs.cls)` etc.,
insertion-ordered dicts modelled as association lists). -/
structure KernelModule where
  hasCompute : Bool
  computeIsKernel : Bool
  inputs_anns : List (String × WarpAnn)
  outputs_anns : List (String × WarpAnn)
deriving DecidableEq, Repr

/-- The pair of per-direction annotation mappings stored as
`self.kernel_annotations` (a dict keyed by port type in the source). -/
structure KernelAnnotations where
  inputs : List (String × WarpAnn)
  outputs : List (String × WarpAnn)
deriving DecidableEq, Repr

/-- The node's `InternalState`.  Field names drop the Python leading
underscore of the private snapshot fields (`_dim_count`, `_code_provider`,
`_code_str`, `_code_file`, `_code_file_timestamp`). -/
structure InternalState where
  dim_count : Option Int
  code_provider : Option String
  code_str : Option String
  code_file : Option String
  code_file_timestamp : Option Nat
  kernel_module : Option KernelModule
  kernel_annotations : Option KernelAnnotations
  is_valid : Bool
deriving DecidableEq, Repr

/-- `InternalState.__init__`: everything `None`, `is_valid = False`. -/
def InternalState.initial : InternalState :=
  { dim_count := none
    code_provider := none
    code_str := none
    code_file := none
    code_file_timestamp := none
    kernel_module := none
    kernel_annotations := none
    is_valid := false }

/-- The read-only slice of `OgnKernelDatabase` consumed by the node: static
inputs, the user-attribute event tag, the node's attribute list, and the
current values of the dynamic input attributes. -/
structure Db where
  dimCount : Int
  codeProvider : String
  codeStr : String
  codeFile : String
  dim : Nat → Int
  device : String
  userAttrsEvent : UserAttributesEvent
  attrs : List OgAttribute
  inputVal : String → AttrValue
  attrOptional : String → Bool

/-- External collaborators: the Python import machinery plus warp compiler
(`compile`, keyed by the full source text and the module name), the
filesystem (`fileContents` for `open(...).read()`, `fileMtime` for
`os.path.getmtime`, `none` meaning the call raises), the timeline, device
resolution (`wp.get_device`, `none` meaning it raises), and the blake2b
short digest used for module naming. -/
structure Environment where
  compile : String → String → Except Unit KernelModule
  fileContents : String → Option String
  fileMtime : String → Option Nat
  timelineStopped : Bool
  resolveDevice : String → Option Device
  blake2bHex : String → String

/-- The on-disk temporary artifacts created by `tempfile.mkstemp`: a counter
generating fresh paths and the set of files currently on disk. -/
structure TempFS where
  counter : Nat
  files : List String
deriving DecidableEq, Repr

/-- Path produced by the n-th `tempfile.mkstemp(suffix=".py")` call. -/
def tempFilePath (n : Nat) : String :=
  "/tmp/warp-kernel-" ++ toString n ++ ".py"

/-- `os.remove`. -/
def removeFile (fs : TempFS) (p : String) : TempFS :=
  { fs with files := fs.files.erase p }

/-- Provider token `"embedded"`. -/
def embeddedTag : String := "embedded"

/-- Provider token `"file"`. -/
def fileTag : String := "file"

/-- Python `"a:b:c".split(":")[-1]` used on attribute names: the segment after
the last colon (the whole string when there is no colon).  Implemented by
structural recursion over the character list so that it evaluates inside the
kernel. -/
def shortName (full : String) : String :=
  String.mk ((full.data.reverse.takeWhile (fun c => c ≠ ':')).reverse)

/-- Separator used when joining offending attribute names in the batch
output-type error message. -/
def COMMA_SEP : String := ", "

/-- Error text for a missing `compute` entry point. -/
def MISSING_ENTRY_POINT_MSG : String :=
  "The code must define a kernel function named \x27compute\x27."

/-- Error text for a `compute` attribute that is not a kernel object. -/
def NOT_A_KERNEL_MSG : String :=
  "The \x27compute\x27 function must be decorated with \x27@wp.kernel\x27."

/-- Error text listing every non-array output attribute, in one batch. -/
def invalid_output_type_msg (names : List String) : String :=
  "Output attributes are required to be arrays but the following attributes are not: "
    ++ String.intercalate COMMA_SEP names ++ "."

/-- Message attached to the `EmptyRequiredInput` runtime error. -/
def empty_required_input_msg (attr_name : String) : String :=
  "Empty value for non-optional attribute \x27inputs:" ++ attr_name ++ "\x27."

/-- Rendering of `traceback.format_exc()` for a caught exception, as logged by
`OgnKernel.compute`. -/
def tracebackMsg : PyError → String
  | .unsupportedAttrType t => "RuntimeError: Unsupported node attribute type \x27" ++ t ++ "\x27."
  | .fileNotFound p => "OSError: cannot open " ++ p
  | .compileError => "Exception raised while executing the kernel module"
  | .assertionFailed => "AssertionError"
  | .typeError => "TypeError"
  | .attributeError => "AttributeError"
  | .emptyRequiredInput n => "RuntimeError: " ++ empty_required_input_msg n

/-- Collects the `(short name, warp type)` member pairs per port, in attribute
order, raising at the first attribute whose type token is outside the mapping
table (`generate_header_code`, lines 74-90 of the source). -/
def attrsToParams : List OgAttribute → Except PyError (List (String × String) × List (String × String))
  | [] => .ok ([], [])
  | attr :: rest =>
    match ATTR_TO_WARP_TYPE.lookup attr.type_name with
    | none => .error (.unsupportedAttrType attr.type_name)
    | some warp_type =>
      match attrsToParams rest with
      | .error e => .error e
      | .ok (ins, outs) =>
        match attr.port_type with
        | .input => .ok ((shortName attr.name, warp_type) :: ins, outs)
        | .output => .ok (ins, (shortName attr.name, warp_type) :: outs)

/-- Renders the member declaration lines of one struct (`"    name: type"`
joined by newlines). -/
def memberLines (items : List (String × String)) : String :=
  String.intercalate "\n" (items.map (fun p => "    " ++ p.1 ++ ": " ++ p.2))

/-- `HEADER_CODE_TEMPLATE` populated with the member blocks. -/
def headerTemplate (inputs outputs : String) : String :=
  "import warp as wp\n\n@wp.struct\nclass Inputs:\n" ++ inputs
    ++ "\n    pass\n\n@wp.struct\nclass Outputs:\n" ++ outputs ++ "\n    pass\n"

/-- `generate_header_code`: the struct-schema prefix generated from the node's
attributes. -/
def generate_header_code (attrs : List OgAttribute) : Except PyError String :=
  match attrsToParams attrs with
  | .error e => .error e
  | .ok (ins, outs) => .ok (headerTemplate (memberLines ins) (memberLines outs))

/-- `get_user_code`: embedded text, file contents, or an assertion failure for
an unexpected provider token. -/
def get_user_code (db : Db) (env : Environment) : Except PyError String :=
  if db.codeProvider == embeddedTag then .ok db.codeStr
  else if db.codeProvider == fileTag then
    match env.fileContents db.codeFile with
    | some s => .ok s
    | none => .error (.fileNotFound db.codeFile)
  else .error .assertionFailed

/-- `load_code_as_module`: create a temporary file (`tempfile.mkstemp`), write
the code, import it (which runs the warp decorators, i.e. compiles), and remove
the temporary file in a `finally` block, on the success and the failure path
alike. -/
def load_code_as_module (code : String) (module_name : String) (env : Environment)
    (fs : TempFS) : Except PyError KernelModule × TempFS :=
  let file_path := tempFilePath fs.counter
  let fs1 : TempFS := { counter := fs.counter + 1, files := file_path :: fs.files }
  match env.compile code module_name with
  | .ok m => (.ok m, removeFile fs1 file_path)
  | .error _ => (.error .compileError, removeFile fs1 file_path)

/-- Lines 226-241 of `InternalState.initialize`: generate the header, fetch the
user code, concatenate them with a blank line, derive the content-addressed
module name from the blake2b short digest, and load the module.  The counter of
the returned `TempFS` increases exactly when a compilation was attempted. -/
def compile_kernel_module (db : Db) (env : Environment) (attrs : List OgAttribute)
    (fs : TempFS) : Except PyError KernelModule × TempFS :=
  match generate_header_code attrs with
  | .error e => (.error e, fs)
  | .ok header_code =>
    match get_user_code db env with
    | .error e => (.error e, fs)
    | .ok user_code =>
      let code := header_code ++ "\n" ++ user_code
      let module_name := "warp-kernelnode-" ++ env.blake2bHex code
      load_code_as_module code module_name env fs

/-- Names of the dynamic attributes with the given port type, shortened with
`split(":")[-1]` — the right-hand side of the post-compilation assert. -/
def attr_names (port : PortType) (attrs : List OgAttribute) : List String :=
  (attrs.filter (fun a => a.port_type == port)).map (fun a => shortName a.name)

/-- Lexicographic code-point comparison on character lists (kernel-reducible
replacement for the library string order; Python `sorted` compares strings by
code points in the same way). -/
def charListLe : List Char → List Char → Bool
  | [], _ => true
  | _ :: _, [] => false
  | a :: as, b :: bs =>
    if a.val < b.val then true
    else if b.val < a.val then false
    else charListLe as bs

/-- String comparison used by the model of Python `sorted`. -/
def strLe (a b : String) : Bool := charListLe a.data b.data

/-- Insertion step of the string sort used to model Python `sorted`. -/
def insertSorted (s : String) : List String → List String
  | [] => [s]
  | x :: xs => if strLe s x then s :: x :: xs else x :: insertSorted s xs

/-- Python `sorted` on a list of strings (insertion sort; only the fact that
equal sorts imply equal membership is ever used). -/
def sortStrings : List String → List String
  | [] => []
  | x :: xs => insertSorted x (sortStrings xs)

/-- The condition of the assert at lines 261-272: for each port type, the
sorted member names of the module's struct equal the sorted short names of the
dynamic attributes with that port. -/
def annotationsMatch (anns : KernelAnnotations) (attrs : List OgAttribute) : Bool :=
  sortStrings (anns.inputs.map Prod.fst) == sortStrings (attr_names PortType.input attrs)
    && sortStrings (anns.outputs.map Prod.fst) == sortStrings (attr_names PortType.output attrs)

/-- Output members whose annotation is not an array — the batch collected as
`invalid_attrs` at lines 276-280. -/
def scalar_output_names (m : KernelModule) : List String :=
  (m.outputs_anns.filter (fun p => !p.2.isArray)).map Prod.fst

/-- Outcome of the validation block of `InternalState.initialize`
(lines 243-296): `failed msg` models `db.log_error(msg); return False`,
`assertFailed` a failing `assert`, `ok` reaching the end of the function. -/
inductive ValidationResult
  | failed (msg : String)
  | assertFailed
  | ok (anns : KernelAnnotations)
deriving DecidableEq, Repr

/-- The validation block of `InternalState.initialize`, in source order:
entry-point presence, kernel-ness, the annotations/attributes assert, then the
batch check that every output member is an array.  (The call
`wp.set_module_options({"enable_backward": False})` that follows has no
observable effect in the model.) -/
def validate_module (m : KernelModule) (attrs : List OgAttribute) : ValidationResult :=
  if !m.hasCompute then .failed MISSING_ENTRY_POINT_MSG
  else if !m.computeIsKernel then .failed NOT_A_KERNEL_MSG
  else
    let kernel_annotations : KernelAnnotations :=
      { inputs := m.inputs_anns, outputs := m.outputs_anns }
    if !annotationsMatch kernel_annotations attrs then .assertFailed
    else
      let invalid_attrs := scalar_output_names m
      if !invalid_attrs.isEmpty then .failed (invalid_output_type_msg invalid_attrs)
      else .ok kernel_annotations

/-- Result of `InternalState.initialize`: `outcome = .ok b` models `return b`,
`outcome = .error e` an exception escaping the method; `state` is the mutated
internal state (the snapshot fields are mutated up front and therefore persist
on every path), `log` the `db.log_error` messages, `fs` the temp-file state. -/
structure InitResult where
  outcome : Except PyError Bool
  state : InternalState
  log : List String
  fs : TempFS
deriving Repr

/-- `InternalState.initialize` (source name; lines 216-296).  Note that the
source updates `_dim_count`, `_code_provider`, `_code_str` and `_code_file`
before compiling, but never updates `_code_file_timestamp` (lines 220-223).
On success it stores the module and annotations and returns `True`; validation
failures log and return `False`; exceptions propagate. -/
def initState (db : Db) (env : Environment) (s : InternalState) (fs : TempFS) : InitResult :=
  let s1 : InternalState :=
    { s with
      dim_count := some db.dimCount
      code_provider := some db.codeProvider
      code_str := some db.codeStr
      code_file := some db.codeFile }
  let attrs := db.attrs.filter (fun a => a.is_dynamic)
  match compile_kernel_module db env attrs fs with
  | (.error e, fs2) => { outcome := .error e, state := s1, log := [], fs := fs2 }
  | (.ok m, fs2) =>
    match validate_module m attrs with
    | .failed msg => { outcome := .ok false, state := s1, log := [msg], fs := fs2 }
    | .assertFailed => { outcome := .error .assertionFailed, state := s1, log := [], fs := fs2 }
    | .ok kernel_annotations =>
      { outcome := .ok true
        state := { s1 with
          kernel_module := some m
          kernel_annotations := some kernel_annotations }
        log := []
        fs := fs2 }

/-- Lines 188-214 of `InternalState.needs_initialization`: the snapshot
comparison common to the valid and the invalid branch.  `os.path.getmtime` on a
missing file raises; the final `else` is the `assert False` for an unexpected
cached provider token. -/
def needsSnapshotCheck (s : InternalState) (db : Db) (env : Environment)
    (check_file_modified_time : Bool) : Except PyError Bool :=
  if s.dim_count ≠ some db.dimCount then .ok true
  else if s.code_provider ≠ some db.codeProvider then .ok true
  else if s.code_provider == some embeddedTag then
    if s.code_str ≠ some db.codeStr then .ok true else .ok false
  else if s.code_provider == some fileTag then
    if s.code_file ≠ some db.codeFile then .ok true
    else if check_file_modified_time then
      match s.code_file with
      | none => .error .typeError
      | some p =>
        match env.fileMtime p with
        | none => .error (.fileNotFound p)
        | some t => if s.code_file_timestamp ≠ some t then .ok true else .ok false
    else .ok false
  else .error .assertionFailed

/-- `InternalState.needs_initialization` (lines 165-214): in the valid state,
recompile when the module or annotations are missing or the event tag has the
`removed` flag; otherwise (previous failure), recompile on any non-`NONE`
event; then fall through to the snapshot comparison. -/
def needs_initialization (s : InternalState) (db : Db) (env : Environment)
    (check_file_modified_time : Bool) : Except PyError Bool :=
  if s.is_valid then
    if s.kernel_module.isNone || s.kernel_annotations.isNone || db.userAttrsEvent.removed then
      .ok true
    else needsSnapshotCheck s db env check_file_modified_time
  else
    if db.userAttrsEvent ≠ UserAttributesEvent.NONE then .ok true
    else needsSnapshotCheck s db env check_file_modified_time

/-- `cast_array_to_warp_type`: wraps an attribute array into warp's buffer
representation.  On CPU the wrap is `wp.array(value, dtype, owner=False)`
(zero copy), on CUDA `omni.warp.from_omni_graph(value, dtype)`; either way the
wrapped buffer aliases the same memory, so length and pointer are preserved,
which is all the node ever observes of it. -/
def cast_array_to_warp_type (value : AttrValue) (warp_a : WarpAnn) (device : Device) :
    AttrValue :=
  match device with
  | .cpu => value
  | .cuda => value

/-- `are_array_annotations_equal`: dtype and ndim agree.  The source asserts
both arguments are `wp.array`s; every call site has already established that,
and on non-arrays the function returns `false` here. -/
def are_array_annotations_equal : WarpAnn → WarpAnn → Bool
  | .array d1 n1, .array d2 n2 => d1 == d2 && n1 == n2
  | _, _ => false

/-- Python `len(...)`: length of a buffer; a scalar has no length. -/
def pyLen : AttrValue → Except PyError Nat
  | .buffer l _ => .ok l
  | .scalar _ => .error .typeError

/-- `functools.reduce(operator.mul, dims)`: no initial value, so an empty
sequence raises. -/
def reduce_mul : List Nat → Except PyError Nat
  | [] => .error .typeError
  | d :: rest => .ok (rest.foldl (fun a b => a * b) d)

/-- First loop of `get_kernel_args` (lines 343-352): build the `Inputs` struct,
wrapping the value of each member whose annotation is an array. -/
def build_inputs (db : Db) (device : Device) (anns : List (String × WarpAnn)) :
    List (String × AttrValue) :=
  anns.map (fun p =>
    let value := db.inputVal p.1
    let value := if p.2.isArray then cast_array_to_warp_type value p.2 device else value
    (p.1, value))

/-- Allocation-size rule for one output member (lines 359-370): if an input
member of the same name exists and its array annotation matches, reuse the
(wrapped) input's current length, else take the product of the launch
dimensions. -/
def output_alloc_size (inputAnns : List (String × WarpAnn))
    (inputsStruct : List (String × AttrValue)) (dims : List Nat)
    (warp_a : WarpAnn) (member : String) : Except PyError Nat :=
  match inputAnns.lookup member with
  | some ref_a =>
    if ref_a.isArray && are_array_annotations_equal warp_a ref_a then
      match inputsStruct.lookup member with
      | some v => pyLen v
      | none => .error .attributeError
    else reduce_mul dims
  | none => reduce_mul dims

/-- Second loop of `get_kernel_args` (lines 355-381): for each output member
(asserted to be an array), compute the allocation size, resize the output
attribute (recorded in the returned size list), fetch the freshly allocated
buffer (`ptr = 1`: a valid allocation) and wrap it. -/
def build_outputs (db : Db) (device : Device) (inputAnns : List (String × WarpAnn))
    (inputsStruct : List (String × AttrValue)) (dims : List Nat) :
    List (String × WarpAnn) →
      Except PyError (List (String × AttrValue) × List (String × Nat))
  | [] => .ok ([], [])
  | (member, warp_a) :: rest =>
    if !warp_a.isArray then .error .assertionFailed
    else
      match output_alloc_size inputAnns inputsStruct dims warp_a member with
      | .error e => .error e
      | .ok size =>
        match build_outputs db device inputAnns inputsStruct dims rest with
        | .error e => .error e
        | .ok (vs, ss) =>
          .ok ((member, cast_array_to_warp_type (.buffer size 1) warp_a device) :: vs,
               (member, size) :: ss)

/-- `get_kernel_args`: the input struct, the output struct, and the sizes the
output attributes were resized to. -/
def get_kernel_args (db : Db) (anns : KernelAnnotations) (dims : List Nat)
    (device : Device) :
    Except PyError (List (String × AttrValue) × List (String × AttrValue) × List (String × Nat)) :=
  let inputs := build_inputs db device anns.inputs
  match build_outputs db device anns.inputs inputs dims anns.outputs with
  | .error e => .error e
  | .ok (outputs, sizes) => .ok (inputs, outputs, sizes)

/-- Lines 445-455 of `compute`: every array-valued input member that is not
optional for compute must have a non-NULL pointer; the first empty one raises
a `RuntimeError` naming the attribute. -/
def check_required_inputs (db : Db) (inputAnns : List (String × WarpAnn))
    (inputsStruct : List (String × AttrValue)) : Except PyError Unit :=
  match inputAnns with
  | [] => .ok ()
  | (attr_name, _) :: rest =>
    match inputsStruct.lookup attr_name with
    | none => .error .attributeError
    | some value =>
      match value with
      | .scalar _ => check_required_inputs db rest inputsStruct
      | .buffer _ ptr =>
        if !db.attrOptional ("inputs:" ++ attr_name) && ptr == 0 then
          .error (.emptyRequiredInput attr_name)
        else check_required_inputs db rest inputsStruct

/-- `write_output_attrs`: CUDA buffers were written in place during the launch,
so nothing is copied back; on CPU each output value is written back to the
node's attribute. -/
def write_output_attrs (device : Device) (outputs : List (String × AttrValue)) :
    List (String × AttrValue) :=
  match device with
  | .cuda => []
  | .cpu => outputs

/-- Lines 421-428 of `compute`: clamp the dimension count to
`[1, MAX_DIMENSIONS]` and read that many extents, each clamped to a minimum of
0 (`Int.toNat` is exactly `max(x, 0)`). -/
def computeDims (db : Db) : List Nat :=
  let dim_count := (min (max db.dimCount 1) (Int.ofNat MAX_DIMENSIONS)).toNat
  (List.range dim_count).map (fun i => (db.dim (i + 1)).toNat)

/-- Observable result of one inner `compute(db, device)` call. -/
structure ComputeResult where
  outcome : Except PyError Unit
  state : InternalState
  log : List String
  fs : TempFS
  launched : Bool
  launch_dims : List Nat
  output_sizes : List (String × Nat)
  outputs_written : List (String × AttrValue)
deriving Repr

/-- Lines 417-471 of `compute`: the binding-and-dispatch tail run once the
internal state needs no (further) compilation.  Subscripting
`kernel_annotations` when it is still `None` raises, mirroring the source. -/
def dispatch (db : Db) (device : Device) (s : InternalState) (log : List String)
    (fs : TempFS) : ComputeResult :=
  match s.kernel_annotations with
  | none =>
    { outcome := .error .typeError, state := s, log := log, fs := fs,
      launched := false, launch_dims := [], output_sizes := [], outputs_written := [] }
  | some anns =>
    if anns.outputs.isEmpty then
      { outcome := .ok (), state := s, log := log, fs := fs,
        launched := false, launch_dims := [], output_sizes := [], outputs_written := [] }
    else
      let dims := computeDims db
      match get_kernel_args db anns dims device with
      | .error e =>
        { outcome := .error e, state := s, log := log, fs := fs,
          launched := false, launch_dims := [], output_sizes := [], outputs_written := [] }
      | .ok (inputs, outputs, sizes) =>
        match check_required_inputs db anns.inputs inputs with
        | .error e =>
          { outcome := .error e, state := s, log := log, fs := fs,
            launched := false, launch_dims := [], output_sizes := sizes,
            outputs_written := [] }
        | .ok _ =>
          { outcome := .ok (), state := s, log := log, fs := fs,
            launched := true, launch_dims := dims, output_sizes := sizes,
            outputs_written := write_output_attrs device outputs }

/-- The module-level `compute(db, device)` (lines 402-471): consult
`needs_initialization` (with `check_file_modified_time` =
`timeline.is_stopped()`), recompile if needed — returning early on a
validation failure, marking the state valid on success — then dispatch. -/
def compute (db : Db) (device : Device) (env : Environment) (s : InternalState)
    (fs : TempFS) : ComputeResult :=
  match needs_initialization s db env env.timelineStopped with
  | .error e =>
    { outcome := .error e, state := s, log := [], fs := fs,
      launched := false, launch_dims := [], output_sizes := [], outputs_written := [] }
  | .ok true =>
    let r := initState db env s fs
    match r.outcome with
    | .error e =>
      { outcome := .error e, state := r.state, log := r.log, fs := r.fs,
        launched := false, launch_dims := [], output_sizes := [], outputs_written := [] }
    | .ok false =>
      { outcome := .ok (), state := r.state, log := r.log, fs := r.fs,
        launched := false, launch_dims := [], output_sizes := [], outputs_written := [] }
    | .ok true =>
      dispatch db device { r.state with is_valid := true } r.log r.fs
  | .ok false => dispatch db device s [] fs

/-- `wp.config.quiet` captured at import time (`QUIET_DEFAULT`). -/
def QUIET_DEFAULT : Bool := false

/-- Device selection at the top of `OgnKernel.compute`: `wp.get_device` on the
requested identifier, falling back to the default `"cuda:0"` device when that
raises. -/
def deviceOf (db : Db) (env : Environment) : Device :=
  match env.resolveDevice db.device with
  | some d => d
  | none => Device.cuda

/-- Observable result of one `OgnKernel.compute(db)` call. -/
structure NodeResult where
  outcome : Except PyError Unit
  state : InternalState
  log : List String
  fs : TempFS
  launched : Bool
  launch_dims : List Nat
  output_sizes : List (String × Nat)
  outputs_written : List (String × AttrValue)
  userAttrsEvent : UserAttributesEvent
  execOutSet : Bool
  quiet : Bool
deriving Repr

/-- The node entry point `OgnKernel.compute` (lines 493-519; named
`OgnKernelCompute` here since the inner module-level function already holds
the name `compute`): resolve the
device, run the inner compute; if an exception escapes it, clear `is_valid`,
log the traceback, silence warp and return — otherwise restore the quiet
default, reset the user-attributes event tag to `NONE` and enable the
downstream execution signal. -/
def OgnKernelCompute (db : Db) (env : Environment) (s : InternalState)
    (fs : TempFS) : NodeResult :=
  let device := deviceOf db env
  let r := compute db device env s fs
  match r.outcome with
  | .ok _ =>
    { outcome := .ok (), state := r.state, log := r.log, fs := r.fs,
      launched := r.launched, launch_dims := r.launch_dims,
      output_sizes := r.output_sizes, outputs_written := r.outputs_written,
      userAttrsEvent := UserAttributesEvent.NONE,
      execOutSet := true, quiet := QUIET_DEFAULT }
  | .error e =>
    { outcome := .error e, state := { r.state with is_valid := false },
      log := r.log ++ [tracebackMsg e], fs := r.fs,
      launched := r.launched, launch_dims := r.launch_dims,
      output_sizes := r.output_sizes, outputs_written := r.outputs_written,
      userAttrsEvent := db.userAttrsEvent,
      execOutSet := false, quiet := true }

/-- Whether an `Except` carries a normal return. -/
def exceptIsOk : Except PyError Unit → Bool
  | .ok _ => true
  | .error _ => false

deriving instance DecidableEq for Except

/-! Concrete instances used by the witnesses and counterexamples below.  They
describe small but complete node configurations on which the embedded
functions evaluate by `decide`. -/

/-- A one-word embedded kernel source. -/
def passCode : String := "pass"

/-- The empty string (used as an unset `codeFile` value). -/
def emptyStr : String := ""

/-- Device token `"cpu"`. -/
def cpuTag : String := "cpu"

/-- A fixed value returned by the sample digest oracle. -/
def hexDigest : String := "0123456789abcdef"

/-- Sample code file path. -/
def kernelFile : String := "kernel.py"

/-- Short attribute names used by the samples. -/
def aKey : String := "a"

/-- Short attribute name `b`. -/
def bKey : String := "b"

/-- Short attribute name `c`. -/
def cKey : String := "c"

/-- Full attribute name `inputs:a`. -/
def inputsAName : String := "inputs:a"

/-- Full attribute name `outputs:b`. -/
def outputsBName : String := "outputs:b"

/-- Full attribute name `outputs:c`. -/
def outputsCName : String := "outputs:c"

/-- Attribute type token `float`. -/
def floatTag : String := "float"

/-- Attribute type token `float[]`. -/
def floatArrayTag : String := "float[]"

/-- One-dimensional float array annotation. -/
def floatArr1 : WarpAnn := WarpAnn.array floatTag 1

/-- A well-formed compiled module with no members. -/
def emptyModule : KernelModule :=
  { hasCompute := true, computeIsKernel := true, inputs_anns := [], outputs_anns := [] }

/-- A compiled module that does not define `compute`. -/
def noComputeModule : KernelModule :=
  { hasCompute := false, computeIsKernel := false, inputs_anns := [], outputs_anns := [] }

/-- A compiled module with an array input `a` and an array output `b`. -/
def abModule : KernelModule :=
  { hasCompute := true, computeIsKernel := true,
    inputs_anns := [(aKey, floatArr1)], outputs_anns := [(bKey, floatArr1)] }

/-- A compiled module with array input `a` and no outputs. -/
def aOnlyModule : KernelModule :=
  { hasCompute := true, computeIsKernel := true,
    inputs_anns := [(aKey, floatArr1)], outputs_anns := [] }

/-- A compiled module whose outputs `b` and `c` are scalars. -/
def badOutModule : KernelModule :=
  { hasCompute := true, computeIsKernel := true,
    inputs_anns := [],
    outputs_anns := [(bKey, WarpAnn.scalar floatTag), (cKey, WarpAnn.scalar floatTag)] }

/-- Annotations with no members. -/
def emptyAnns : KernelAnnotations := { inputs := [], outputs := [] }

/-- Annotations of `abModule`. -/
def abAnns : KernelAnnotations :=
  { inputs := [(aKey, floatArr1)], outputs := [(bKey, floatArr1)] }

/-- An empty temp-file state. -/
def fs0 : TempFS := { counter := 0, files := [] }

/-- A node configuration in embedded mode whose event tag has the `removed`
flag set and no dynamic attributes. -/
def dbRemovedEvent : Db :=
  { dimCount := 1, codeProvider := embeddedTag, codeStr := passCode,
    codeFile := emptyStr, dim := fun _ => 1, device := cpuTag,
    userAttrsEvent := { added := false, removed := true },
    attrs := [], inputVal := fun _ => AttrValue.scalar 0,
    attrOptional := fun _ => false }

/-- An environment whose compiler yields `noComputeModule`. -/
def envNoCompute : Environment :=
  { compile := fun _ _ => .ok noComputeModule,
    fileContents := fun _ => none, fileMtime := fun _ => none,
    timelineStopped := true, resolveDevice := fun _ => some Device.cpu,
    blake2bHex := fun _ => hexDigest }

/-- A valid internal state holding `emptyModule`, with snapshots matching
`dbRemovedEvent`. -/
def validEmptyState : InternalState :=
  { dim_count := some 1, code_provider := some embeddedTag,
    code_str := some passCode, code_file := some emptyStr,
    code_file_timestamp := none,
    kernel_module := some emptyModule, kernel_annotations := some emptyAnns,
    is_valid := true }

/-- A node configuration in embedded mode with a dynamic array input `a`
(currently bound to an empty buffer, not optional) and array output `b`. -/
def dbEmptyInput : Db :=
  { dimCount := 1, codeProvider := embeddedTag, codeStr := passCode,
    codeFile := emptyStr, dim := fun _ => 4, device := cpuTag,
    userAttrsEvent := UserAttributesEvent.NONE,
    attrs := [{ name := inputsAName, port_type := PortType.input,
                type_name := floatArrayTag, is_dynamic := true },
              { name := outputsBName, port_type := PortType.output,
                type_name := floatArrayTag, is_dynamic := true }],
    inputVal := fun n => if n == aKey then AttrValue.buffer 0 0 else AttrValue.scalar 0,
    attrOptional := fun _ => false }

/-- An environment whose compiler yields `abModule`. -/
def envPlain : Environment :=
  { compile := fun _ _ => .ok abModule,
    fileContents := fun _ => none, fileMtime := fun _ => none,
    timelineStopped := true, resolveDevice := fun _ => some Device.cpu,
    blake2bHex := fun _ => hexDigest }

/-- A valid internal state holding `abModule`, with snapshots matching
`dbEmptyInput`. -/
def validABState : InternalState :=
  { dim_count := some 1, code_provider := some embeddedTag,
    code_str := some passCode, code_file := some emptyStr,
    code_file_timestamp := none,
    kernel_module := some abModule, kernel_annotations := some abAnns,
    is_valid := true }

/-- A node configuration in file mode with no dynamic attributes. -/
def dbFileMode : Db :=
  { dimCount := 1, codeProvider := fileTag, codeStr := emptyStr,
    codeFile := kernelFile, dim := fun _ => 1, device := cpuTag,
    userAttrsEvent := UserAttributesEvent.NONE,
    attrs := [], inputVal := fun _ => AttrValue.scalar 0,
    attrOptional := fun _ => false }

/-- An environment with a stable code file (fixed contents and modification
time) whose compiler yields `emptyModule`, observed with the timeline stopped
(so the file modification time is checked). -/
def envFile : Environment :=
  { compile := fun _ _ => .ok emptyModule,
    fileContents := fun _ => some passCode, fileMtime := fun _ => some 100,
    timelineStopped := true, resolveDevice := fun _ => some Device.cpu,
    blake2bHex := fun _ => hexDigest }

/-- Annotations for the allocation-size witness: array input `a`, array
outputs `a` (same annotation) and `b` (no same-named input). -/
def anns5 : KernelAnnotations :=
  { inputs := [(aKey, floatArr1)],
    outputs := [(aKey, floatArr1), (bKey, floatArr1)] }

/-- A node configuration whose input `a` holds a buffer of length 4. -/
def db5 : Db :=
  { dimCount := 3, codeProvider := embeddedTag, codeStr := passCode,
    codeFile := emptyStr, dim := fun _ => 1, device := cpuTag,
    userAttrsEvent := UserAttributesEvent.NONE,
    attrs := [], inputVal := fun n => if n == aKey then AttrValue.buffer 4 1 else AttrValue.scalar 0,
    attrOptional := fun _ => false }

/-- The iteration extents of the allocation-size witness. -/
def dims123 : List Nat := [1, 2, 3]

/-- A node configuration with one dynamic array input attribute `a`. -/
def db6 : Db :=
  { dimCount := 1, codeProvider := embeddedTag, codeStr := passCode,
    codeFile := emptyStr, dim := fun _ => 1, device := cpuTag,
    userAttrsEvent := UserAttributesEvent.NONE,
    attrs := [{ name := inputsAName, port_type := PortType.input,
                type_name := floatArrayTag, is_dynamic := true }],
    inputVal := fun n => if n == aKey then AttrValue.buffer 4 1 else AttrValue.scalar 0,
    attrOptional := fun _ => false }

/-- An environment whose compiler yields `aOnlyModule`. -/
def env6 : Environment :=
  { compile := fun _ _ => .ok aOnlyModule,
    fileContents := fun _ => none, fileMtime := fun _ => none,
    timelineStopped := true, resolveDevice := fun _ => some Device.cpu,
    blake2bHex := fun _ => hexDigest }

/-- The dynamic output attributes matching `badOutModule`. -/
def attrs8 : List OgAttribute :=
  [{ name := outputsBName, port_type := PortType.output,
     type_name := floatTag, is_dynamic := true },
   { name := outputsCName, port_type := PortType.output,
     type_name := floatTag, is_dynamic := true }]


theorem insertSorted_perm (s : String) (l : List String) :
    List.Perm (insertSorted s l) (s :: l) := by
  induction l with
  | nil => exact List.Perm.refl _
  | cons x xs ih =>
    simp only [insertSorted]
    split
    · exact List.Perm.refl _
    · exact (ih.cons x).trans (List.Perm.swap s x xs)

theorem sortStrings_perm (l : List String) : List.Perm (sortStrings l) l := by
  induction l with
  | nil => exact List.Perm.refl _
  | cons x xs ih => exact (insertSorted_perm x (sortStrings xs)).trans (ih.cons x)

theorem sortStrings_eq_mem {a b : List String} (h : sortStrings a = sortStrings b)
    (n : String) : n ∈ a ↔ n ∈ b := by
  have p : List.Perm (sortStrings a) b := by rw [h]; exact sortStrings_perm b
  exact ((sortStrings_perm a).symm.trans p).mem_iff

/-- C7: on every exit path of the module-loading step — normal return and the
compilation-failure path alike — the temporary on-disk source artifact created
by `tempfile.mkstemp` is removed again before the step returns: the set of
files on disk after `load_code_as_module` equals the set before it. -/
theorem c7_temp_artifact_removed (code module_name : String) (env : Environment)
    (fs : TempFS) :
    (load_code_as_module code module_name env fs).2.files = fs.files := by
  unfold load_code_as_module removeFile
  cases env.compile code module_name <;> simp

/-- C10: whenever the inner per-invocation computation returns without an
exception — the recompilation-failed early return and the zero-outputs no-op
included — the node entry point resets the user-attribute event tag to `NONE`
and sets the downstream execution-enabled signal; both effects are skipped
exactly when an exception escapes the inner computation. -/
theorem c10_event_reset_and_exec_follow_outcome (db : Db) (env : Environment)
    (s : InternalState) (fs : TempFS) :
    (OgnKernelCompute db env s fs).userAttrsEvent
        = (if exceptIsOk (OgnKernelCompute db env s fs).outcome
           then UserAttributesEvent.NONE else db.userAttrsEvent)
      ∧ (OgnKernelCompute db env s fs).execOutSet
        = exceptIsOk (OgnKernelCompute db env s fs).outcome := by
  unfold OgnKernelCompute
  cases h : (compute db (deviceOf db env) env s fs).outcome <;>
    simp [h, exceptIsOk]

/-- C4: starting from a `Valid` state whose compiled unit and annotations are
present and whose snapshot fields all match the current invocation parameters,
`needs_initialization` answers exactly the `removed` flag of the attribute
event tag: an event with `removed` set always triggers recompilation, while an
event with only `added` set — and the `NONE` tag — does not. -/
theorem c4_removed_flag_decides_recompile
    (s : InternalState) (db : Db) (env : Environment) (check : Bool)
    (hv : s.is_valid = true)
    (hm : s.kernel_module.isSome = true)
    (ha : s.kernel_annotations.isSome = true)
    (hd : s.dim_count = some db.dimCount)
    (hp : s.code_provider = some db.codeProvider)
    (hemb : db.codeProvider = embeddedTag → s.code_str = some db.codeStr)
    (hfile : db.codeProvider = fileTag →
      s.code_file = some db.codeFile ∧
      (check = true → ∃ t, env.fileMtime db.codeFile = some t
          ∧ s.code_file_timestamp = some t))
    (hprov : db.codeProvider = embeddedTag ∨ db.codeProvider = fileTag) :
    needs_initialization s db env check = .ok db.userAttrsEvent.removed := by
  have hsnap : needsSnapshotCheck s db env check = .ok false := by
    unfold needsSnapshotCheck
    rcases hprov with h | h
    · simp [hd, hp, h, hemb h]
    · obtain ⟨hcf, hts⟩ := hfile h
      cases hc : check with
      | false => simp [hd, hp, h, hcf, hc, embeddedTag, fileTag]
      | true =>
        obtain ⟨t, hmt, hst⟩ := hts hc
        simp [hd, hp, h, hcf, hc, hmt, hst, embeddedTag, fileTag]
  obtain ⟨m, hm'⟩ := Option.isSome_iff_exists.mp hm
  obtain ⟨a, ha'⟩ := Option.isSome_iff_exists.mp ha
  unfold needs_initialization
  cases hr : db.userAttrsEvent.removed with
  | true => simp [hv, hr]
  | false => simp [hv, hr, hm', ha', hsnap]

theorem validate_module_ok (m : KernelModule) (attrs : List OgAttribute)
    (anns : KernelAnnotations) (h : validate_module m attrs = .ok anns) :
    anns.inputs = m.inputs_anns ∧ anns.outputs = m.outputs_anns
      ∧ annotationsMatch anns attrs = true := by
  simp only [validate_module] at h
  split at h
  · simp at h
  split at h
  · simp at h
  split at h
  · simp at h
  split at h
  · simp at h
  rename_i h1 h2 h3 h4
  injection h with h
  subst h
  refine ⟨rfl, rfl, ?_⟩
  simpa using h3

theorem annotationsMatch_mem {anns : KernelAnnotations} {attrs : List OgAttribute}
    (h : annotationsMatch anns attrs = true) :
    (∀ n, n ∈ anns.inputs.map Prod.fst ↔ n ∈ attr_names PortType.input attrs)
      ∧ (∀ n, n ∈ anns.outputs.map Prod.fst ↔ n ∈ attr_names PortType.output attrs) := by
  unfold annotationsMatch at h
  rw [Bool.and_eq_true, beq_iff_eq, beq_iff_eq] at h
  exact ⟨sortStrings_eq_mem h.1, sortStrings_eq_mem h.2⟩

/-- C6: after every successful compilation, the stored annotations are exactly
the member annotations of the module's generated `Inputs`/`Outputs` structs,
and — because success implies the post-compilation assert held — for each
direction the set of member names equals exactly the set of dynamic attribute
names with that direction. -/
theorem c6_struct_members_match_attrs
    (db : Db) (env : Environment) (s : InternalState) (fs : TempFS)
    (h : (initState db env s fs).outcome = .ok true) :
    ∃ m anns,
      (initState db env s fs).state.kernel_module = some m
      ∧ (initState db env s fs).state.kernel_annotations = some anns
      ∧ anns.inputs = m.inputs_anns
      ∧ anns.outputs = m.outputs_anns
      ∧ (∀ n, n ∈ anns.inputs.map Prod.fst
            ↔ n ∈ attr_names PortType.input (db.attrs.filter (fun a => a.is_dynamic)))
      ∧ (∀ n, n ∈ anns.outputs.map Prod.fst
            ↔ n ∈ attr_names PortType.output (db.attrs.filter (fun a => a.is_dynamic))) := by
  cases hc : compile_kernel_module db env (db.attrs.filter fun a => a.is_dynamic) fs with
  | mk res fs2 =>
    cases res with
    | error e => simp only [initState, hc] at h; simp at h
    | ok m =>
      cases hv : validate_module m (db.attrs.filter fun a => a.is_dynamic) with
      | failed msg => simp only [initState, hc, hv] at h; simp at h
      | assertFailed => simp only [initState, hc, hv] at h; simp at h
      | ok anns =>
        obtain ⟨hi, ho, hmatch⟩ := validate_module_ok m _ anns hv
        obtain ⟨hmi, hmo⟩ := annotationsMatch_mem hmatch
        simp only [initState, hc, hv]
        exact ⟨m, anns, rfl, rfl, hi, ho, hmi, hmo⟩

/-- C8: the validation block checks in source order and short-circuits on the
first failure — a missing `compute` entry point is reported first regardless
of the other conditions, a non-kernel `compute` second, and only then are the
output annotations examined, with every scalar-typed output member collected
and reported together in a single batch error message. -/
theorem c8_validation_checks_in_order (m : KernelModule) (attrs : List OgAttribute) :
    (m.hasCompute = false → validate_module m attrs = .failed MISSING_ENTRY_POINT_MSG)
      ∧ (m.hasCompute = true → m.computeIsKernel = false →
          validate_module m attrs = .failed NOT_A_KERNEL_MSG)
      ∧ (m.hasCompute = true → m.computeIsKernel = true →
          annotationsMatch { inputs := m.inputs_anns, outputs := m.outputs_anns } attrs = true →
          scalar_output_names m ≠ [] →
          validate_module m attrs
            = .failed (invalid_output_type_msg (scalar_output_names m))) := by
  refine ⟨?_, ?_, ?_⟩
  · intro h1
    simp [validate_module, h1]
  · intro h1 h2
    simp [validate_module, h1, h2]
  · intro h1 h2 h3 h4
    have h5 : (scalar_output_names m).isEmpty = false := by
      cases hsc : scalar_output_names m with
      | nil => exact absurd hsc h4
      | cons a l => rfl
    simp [validate_module, h1, h2, h3, h5]

theorem cast_array_id (v : AttrValue) (w : WarpAnn) (d : Device) :
    cast_array_to_warp_type v w d = v := by
  cases d <;> rfl

theorem build_inputs_lookup (db : Db) (device : Device)
    (anns : List (String × WarpAnn)) (member : String) (r : WarpAnn)
    (h : anns.lookup member = some r) :
    (build_inputs db device anns).lookup member
      = some (if r.isArray then cast_array_to_warp_type (db.inputVal member) r device
              else db.inputVal member) := by
  induction anns with
  | nil => simp [List.lookup] at h
  | cons p rest ih =>
    obtain ⟨n0, w0⟩ := p
    by_cases hn : member = n0
    · subst hn
      simp only [List.lookup, beq_self_eq_true] at h
      injection h with h
      subst h
      simp [build_inputs, List.lookup]
    · have hb : (member == n0) = false := by simp [hn]
      simp only [List.lookup, hb] at h
      simpa [build_inputs, List.lookup, hb] using ih h

theorem foldl_mul_prod (d : Nat) (ds : List Nat) :
    ds.foldl (fun a b => a * b) d = (d :: ds).prod := by
  induction ds generalizing d with
  | nil => simp
  | cons b bs ih => simp [List.foldl, ih (d * b), mul_assoc]

theorem reduce_mul_ok (dims : List Nat) (h : dims ≠ []) :
    reduce_mul dims = .ok dims.prod := by
  cases dims with
  | nil => exact absurd rfl h
  | cons d ds => simp [reduce_mul, foldl_mul_prod]

theorem build_outputs_lookup (db : Db) (device : Device)
    (inputAnns : List (String × WarpAnn)) (inputsStruct : List (String × AttrValue))
    (dims : List Nat) (outs : List (String × WarpAnn))
    (vs : List (String × AttrValue)) (ss : List (String × Nat))
    (member : String) (w : WarpAnn)
    (hb : build_outputs db device inputAnns inputsStruct dims outs = .ok (vs, ss))
    (hl : outs.lookup member = some w) :
    ∃ sz, ss.lookup member = some sz
      ∧ output_alloc_size inputAnns inputsStruct dims w member = .ok sz := by
  induction outs generalizing vs ss with
  | nil => simp [List.lookup] at hl
  | cons p rest ih =>
    obtain ⟨n0, w0⟩ := p
    simp only [build_outputs] at hb
    cases haa : w0.isArray with
    | false => simp [haa] at hb
    | true =>
      simp only [haa, Bool.not_true, Bool.false_eq_true, if_false] at hb
      cases hs : output_alloc_size inputAnns inputsStruct dims w0 n0 with
      | error e => simp [hs] at hb
      | ok size =>
        cases hr : build_outputs db device inputAnns inputsStruct dims rest with
        | error e => simp [hs, hr] at hb
        | ok pr =>
          obtain ⟨vs', ss'⟩ := pr
          simp only [hs, hr] at hb
          injection hb with hb
          injection hb with hbv hbs
          by_cases hn : member = n0
          · subst hn
            simp only [List.lookup, beq_self_eq_true] at hl
            injection hl with hl
            subst hl
            refine ⟨size, ?_, hs⟩
            subst hbs
            simp [List.lookup]
          · have hbne : (member == n0) = false := by simp [hn]
            simp only [List.lookup, hbne] at hl
            obtain ⟨sz, h1, h2⟩ := ih vs' ss' hr hl
            refine ⟨sz, ?_, h2⟩
            subst hbs
            simpa [List.lookup, hbne] using h1

/-- C5: for every declared output member bound by `get_kernel_args`, the
allocated output size equals the current length of the same-named input member
when such an input exists with an equal element type and dimensionality
annotation, and otherwise equals the product of all iteration-space extents. -/
theorem c5_output_allocation_rule
    (db : Db) (anns : KernelAnnotations) (dims : List Nat) (device : Device)
    (inputs outputs : List (String × AttrValue)) (sizes : List (String × Nat))
    (member : String) (w : WarpAnn)
    (h : get_kernel_args db anns dims device = .ok (inputs, outputs, sizes))
    (hout : anns.outputs.lookup member = some w) :
    (∀ r l p, anns.inputs.lookup member = some r → r.isArray = true →
        are_array_annotations_equal w r = true →
        db.inputVal member = .buffer l p →
        sizes.lookup member = some l)
      ∧ ((anns.inputs.lookup member = none
            ∨ ∃ r, anns.inputs.lookup member = some r
                ∧ (r.isArray && are_array_annotations_equal w r) = false) →
          dims ≠ [] → sizes.lookup member = some dims.prod) := by
  simp only [get_kernel_args] at h
  cases hb : build_outputs db device anns.inputs (build_inputs db device anns.inputs)
      dims anns.outputs with
  | error e => simp [hb] at h
  | ok pr =>
    obtain ⟨o, s⟩ := pr
    simp only [hb] at h
    injection h with h
    injection h with hin h
    injection h with ho hs
    subst hin; subst hs
    obtain ⟨sz, hss, halloc⟩ :=
      build_outputs_lookup db device anns.inputs (build_inputs db device anns.inputs)
        dims anns.outputs o s member w hb hout
    constructor
    · intro r l p hinl hra heq hval
      have hwrap := build_inputs_lookup db device anns.inputs member r hinl
      rw [hra] at hwrap
      simp only [if_true, cast_array_id, hval] at hwrap
      simp only [output_alloc_size, hinl, hra, heq, Bool.and_self, if_true,
        hwrap, pyLen] at halloc
      injection halloc with halloc
      subst halloc
      exact hss
    · intro hcase hd
      have hred := reduce_mul_ok dims hd
      rcases hcase with hnone | ⟨r, hinl, hcond⟩
      · simp only [output_alloc_size, hnone, hred] at halloc
        injection halloc with halloc
        subst halloc
        exact hss
      · simp only [output_alloc_size, hinl, hcond, if_false, hred] at halloc
        injection halloc with halloc
        subst halloc
        exact hss

theorem initState_failure_state (db : Db) (env : Environment) (s : InternalState)
    (fs : TempFS) (h : (initState db env s fs).outcome ≠ .ok true) :
    (initState db env s fs).state.kernel_module = s.kernel_module
      ∧ (initState db env s fs).state.kernel_annotations = s.kernel_annotations
      ∧ (initState db env s fs).state.is_valid = s.is_valid := by
  cases hc : compile_kernel_module db env (db.attrs.filter fun a => a.is_dynamic) fs with
  | mk res fs2 =>
    cases res with
    | error e => simp [initState, hc]
    | ok m =>
      cases hv : validate_module m (db.attrs.filter fun a => a.is_dynamic) with
      | failed msg => simp [initState, hc, hv]
      | assertFailed => simp [initState, hc, hv]
      | ok anns =>
        exfalso
        exact h (by simp [initState, hc, hv])

/-- C1, counterexample to the claim as stated: starting from a `Valid` state
with a stored compiled unit, a `removed` attribute event forces recompilation;
the fresh module fails validation (no `compute` entry point), so the
initialize step returns unsuccessfully — yet the validity flag is NOT cleared
and the stored compiled unit is NOT cleared (only the dispatch is skipped). -/
theorem c1_counterexample :
    (OgnKernelCompute dbRemovedEvent envNoCompute validEmptyState fs0).log
        = [MISSING_ENTRY_POINT_MSG]
      ∧ (OgnKernelCompute dbRemovedEvent envNoCompute validEmptyState fs0).launched = false
      ∧ (OgnKernelCompute dbRemovedEvent envNoCompute validEmptyState fs0).state.is_valid = true
      ∧ (OgnKernelCompute dbRemovedEvent envNoCompute validEmptyState fs0).state.kernel_module
          = some emptyModule := by
  decide

/-- C1, amended: for every invocation in which compilation or validation fails
(the initialize step does not return successfully), the invocation does not
proceed to binding/dispatch and the stored compiled unit is left unchanged —
never cleared; the validity flag is left unchanged when validation returns
`False`, and is cleared (by the node-boundary exception handler) only when the
failure is an exception. -/
theorem c1_failed_recompile_keeps_unit_and_skips_dispatch
    (db : Db) (env : Environment) (s : InternalState) (fs : TempFS)
    (hn : needs_initialization s db env env.timelineStopped = .ok true)
    (hf : (initState db env s fs).outcome ≠ .ok true) :
    (OgnKernelCompute db env s fs).launched = false
      ∧ (OgnKernelCompute db env s fs).state.kernel_module = s.kernel_module
      ∧ (OgnKernelCompute db env s fs).state.kernel_annotations = s.kernel_annotations
      ∧ (OgnKernelCompute db env s fs).state.is_valid
          = (match (initState db env s fs).outcome with
             | .ok false => s.is_valid
             | _ => false) := by
  obtain ⟨hm, ha, hv⟩ := initState_failure_state db env s fs hf
  unfold OgnKernelCompute compute
  cases ho : (initState db env s fs).outcome with
  | error e => simp [hn, ho, hm, ha, hv]
  | ok b =>
    cases b with
    | false => simp [hn, ho, hm, ha, hv]
    | true => exact absurd ho hf

/-- C1, witness for the amended statement at the counterexample input. -/
theorem c1_amended_witness :
    (OgnKernelCompute dbRemovedEvent envNoCompute validEmptyState fs0).launched = false
      ∧ (OgnKernelCompute dbRemovedEvent envNoCompute validEmptyState fs0).state.kernel_module
          = validEmptyState.kernel_module
      ∧ (OgnKernelCompute dbRemovedEvent envNoCompute validEmptyState fs0).state.kernel_annotations
          = validEmptyState.kernel_annotations
      ∧ (OgnKernelCompute dbRemovedEvent envNoCompute validEmptyState fs0).state.is_valid
          = (match (initState dbRemovedEvent envNoCompute validEmptyState fs0).outcome with
             | .ok false => validEmptyState.is_valid
             | _ => false) :=
  c1_failed_recompile_keeps_unit_and_skips_dispatch dbRemovedEvent envNoCompute
    validEmptyState fs0 (by decide) (by decide)

/-- C2, counterexample to the claim as stated: a dispatch over a `Valid`
compiled unit with a non-optional empty array input raises the empty-input
error naming the attribute, but the node-boundary exception handler then
clears the validity flag, so the compiled unit does not remain `Valid`. -/
theorem c2_counterexample :
    (OgnKernelCompute dbEmptyInput envPlain validABState fs0).outcome
        = .error (.emptyRequiredInput aKey)
      ∧ (OgnKernelCompute dbEmptyInput envPlain validABState fs0).state.is_valid = false := by
  decide

/-- C2, amended: when a dispatch over a `Valid` compiled unit finds an empty
non-optional array input, the empty-input error naming that attribute is
raised and only the current dispatch is aborted (no launch, no recompilation,
the stored compiled unit and annotations are retained) — but the validity
flag is cleared by the node-boundary exception handler rather than left set. -/
theorem c2_empty_required_input_aborts_dispatch
    (db : Db) (env : Environment) (s : InternalState) (fs : TempFS)
    (anns : KernelAnnotations)
    (inputs outputs : List (String × AttrValue)) (sizes : List (String × Nat))
    (nm : String)
    (hn : needs_initialization s db env env.timelineStopped = .ok false)
    (ha : s.kernel_annotations = some anns)
    (hne : anns.outputs.isEmpty = false)
    (hk : get_kernel_args db anns (computeDims db) (deviceOf db env)
            = .ok (inputs, outputs, sizes))
    (hc : check_required_inputs db anns.inputs inputs
            = .error (.emptyRequiredInput nm)) :
    (OgnKernelCompute db env s fs).outcome = .error (.emptyRequiredInput nm)
      ∧ (OgnKernelCompute db env s fs).launched = false
      ∧ (OgnKernelCompute db env s fs).state.kernel_module = s.kernel_module
      ∧ (OgnKernelCompute db env s fs).state.kernel_annotations = s.kernel_annotations
      ∧ (OgnKernelCompute db env s fs).state.is_valid = false
      ∧ (OgnKernelCompute db env s fs).fs = fs := by
  unfold OgnKernelCompute compute dispatch
  simp only [hn, ha, hne, hk, hc]
  simp [ha]

/-- C2, witness for the amended statement at the counterexample input. -/
theorem c2_amended_witness :
    (OgnKernelCompute dbEmptyInput envPlain validABState fs0).outcome
        = .error (.emptyRequiredInput aKey)
      ∧ (OgnKernelCompute dbEmptyInput envPlain validABState fs0).launched = false
      ∧ (OgnKernelCompute dbEmptyInput envPlain validABState fs0).state.kernel_module
          = validABState.kernel_module
      ∧ (OgnKernelCompute dbEmptyInput envPlain validABState fs0).state.kernel_annotations
          = validABState.kernel_annotations
      ∧ (OgnKernelCompute dbEmptyInput envPlain validABState fs0).state.is_valid = false
      ∧ (OgnKernelCompute dbEmptyInput envPlain validABState fs0).fs = fs0 :=
  c2_empty_required_input_aborts_dispatch dbEmptyInput envPlain validABState fs0
    abAnns [(aKey, AttrValue.buffer 0 0)] [(bKey, AttrValue.buffer 4 1)] [(bKey, 4)]
    aKey (by decide) rfl (by decide) (by decide) (by decide)

/-- C3: evaluation exhibiting the claim's failure in file mode.  Two
consecutive invocations with byte-identical parameters (same file path, same
modification time, `NONE` event) and the timeline stopped: the first call
compiles once (the temp-file counter moves 0 → 1) and succeeds, yet the second
call compiles again (1 → 2) instead of performing zero compilations, because
`InternalState.initialize` never stores `_code_file_timestamp`, so the
`None != getmtime` comparison stays true forever. -/
theorem c3_second_identical_call_recompiles :
    (OgnKernelCompute dbFileMode envFile InternalState.initial fs0).outcome = .ok ()
      ∧ (OgnKernelCompute dbFileMode envFile InternalState.initial fs0).state.is_valid = true
      ∧ (OgnKernelCompute dbFileMode envFile InternalState.initial fs0).fs.counter = 1
      ∧ (OgnKernelCompute dbFileMode envFile
            (OgnKernelCompute dbFileMode envFile InternalState.initial fs0).state
            (OgnKernelCompute dbFileMode envFile InternalState.initial fs0).fs).fs.counter
          = 2 := by
  decide

/-- C4, witness: at the concrete valid state with matching snapshots and a
`removed` event, `needs_initialization` requests recompilation. -/
theorem c4_witness :
    needs_initialization validEmptyState dbRemovedEvent envNoCompute true
      = .ok dbRemovedEvent.userAttrsEvent.removed :=
  c4_removed_flag_decides_recompile validEmptyState dbRemovedEvent envNoCompute true
    (by decide) (by decide) (by decide) (by decide) (by decide)
    (fun _ => by decide) (fun h => absurd h (by decide)) (Or.inl (by decide))

/-- C5, witness: output `b` has no same-named input, extents are [1, 2, 3],
and the allocated length is their product, 6. -/
theorem c5_witness :
    [(aKey, (4 : Nat)), (bKey, 6)].lookup bKey = some dims123.prod :=
  (c5_output_allocation_rule db5 anns5 dims123 Device.cpu
      [(aKey, AttrValue.buffer 4 1)]
      [(aKey, AttrValue.buffer 4 1), (bKey, AttrValue.buffer 6 1)]
      [(aKey, 4), (bKey, 6)] bKey floatArr1
      (by decide) (by decide)).2
    (Or.inl (by decide)) (by decide)

/-- C6, witness: a successful compilation with one dynamic input attribute,
instantiating the member-names/attribute-names equality. -/
theorem c6_witness :
    ∃ m anns,
      (initState db6 env6 InternalState.initial fs0).state.kernel_module = some m
      ∧ (initState db6 env6 InternalState.initial fs0).state.kernel_annotations = some anns
      ∧ anns.inputs = m.inputs_anns
      ∧ anns.outputs = m.outputs_anns
      ∧ (∀ n, n ∈ anns.inputs.map Prod.fst
            ↔ n ∈ attr_names PortType.input (db6.attrs.filter (fun a => a.is_dynamic)))
      ∧ (∀ n, n ∈ anns.outputs.map Prod.fst
            ↔ n ∈ attr_names PortType.output (db6.attrs.filter (fun a => a.is_dynamic))) :=
  c6_struct_members_match_attrs db6 env6 InternalState.initial fs0 (by decide)

/-- C8, witness: a module whose two outputs are both scalars is rejected with
the batch error listing both offending names. -/
theorem c8_witness :
    validate_module badOutModule attrs8
      = .failed (invalid_output_type_msg (scalar_output_names badOutModule)) :=
  (c8_validation_checks_in_order badOutModule attrs8).2.2 rfl rfl
    (by decide) (by decide)
